import Mathlib

/-!
# Verification of the LicenseManagement quantity-grid component

Shallow embedding of the `licenseQuantityGrid` Lightning web component.
The repository holds three revisions of the component:
* `src/unnamed/part_001` — the latest revision (dynamic columns, coerced
  edit merge, validation against a maximum-license ceiling).  Embedded in
  namespace `Part001`.
* `src/unnamed/part_000` — an earlier revision whose grid builder fills
  cells with `dataMap.get(key) || null`.  Embedded in namespace `Part000`.
* `src/force-app/.../licenseQuantityGrid.js` — two concatenated revisions;
  its regex-based `americanDateFormat` is embedded at top level.

JavaScript numbers that the component stores in grid cells are integers
(`parseInt` results), modelled as `Int`; a JS `null`/`undefined` cell is
`Option.none`.  JS `Map` objects are modelled by association lists whose
`set` keeps insertion order, as the JS `Map` does.
-/

set_option autoImplicit false

namespace LicenseGrid

/-- Configuration record fetched from `getCustomerSuccessModuleConfig`:
`F5_Contract_Length__c`, `F5_LMS_Start_Date__c`,
`F5_Initial_Renewal_date__c`, `F5_Maximum_License__c`.  A field that is
JS `null`/`undefined` is `none`. -/
structure ConfigData where
  contractLength : Option Nat
  lmsStartDate : Option String
  initialRenewalDate : Option String
  maximumLicense : Option Int
deriving DecidableEq, Repr

/-- `this.configData.F5_Contract_Length__c ? parseInt(...) : 7`:
a missing or `0` (falsy) contract length falls back to the default 7. -/
def ConfigData.maxYears (c : ConfigData) : Nat :=
  match c.contractLength with
  | some n => if n = 0 then 7 else n
  | none => 7

/-- `(this.configData && this.configData.F5_Contract_Length__c) ? ... : 7`
lifted over an absent configuration. -/
def maxYearsOpt (c : Option ConfigData) : Nat :=
  match c with
  | some cfg => cfg.maxYears
  | none => 7

/-- A raw license record returned by `getLicenseData`:
`Grade_Level__c`, `Year__c`, `License_Quantity__c`. -/
structure LicenseRecord where
  gradeLevel : String
  year : Nat
  quantity : Option Int
deriving DecidableEq, Repr

/-- `gradeLabels = ['K', '1', '2', '3', '4', '5', '6', '7', '8']`. -/
def gradeLabels : List String := ["K", "1", "2", "3", "4", "5", "6", "7", "8"]

/-- The `dataMap` built by `processLicenseData`: keys are
`grade + "_" + year`; `Map.set` lets the last record with a key win, and
`get` of an absent key is `undefined` (outer `none`). -/
def dataMapGet (data : List LicenseRecord) (key : String) : Option (Option Int) :=
  (data.reverse.find? (fun r => r.gradeLevel ++ "_" ++ toString r.year == key)).map
    (fun r => r.quantity)

/-- A raw cell value arriving in a datatable draft: JS `null`,
`undefined`, the empty string, a string parsing (via `parseInt`) to the
integer `n`, or a non-numeric string on which `parseInt` yields `NaN`. -/
inductive RawValue where
  | jsNull
  | jsUndefined
  | emptyStr
  | intStr (n : Int)
  | nonNumeric
deriving DecidableEq, Repr

namespace Part001

/-- One grid row of the latest revision: `id`, `grade`, `rowClass`,
`gradeClass` and the `year1..yearN` fields (index `y-1` holds `yearY`). -/
structure Row where
  id : String
  grade : String
  rowClass : String
  gradeClass : String
  cells : List (Option Int)
deriving DecidableEq, Repr

/-- Reading `row[`year${year}`]`: an absent field (`undefined`) and a
`null` field both read as `none`. -/
def cellVal (r : Row) (year : Nat) : Option Int :=
  match r.cells[year - 1]? with
  | some v => v
  | none => none

/-- The `reduce` in `calculateTotals`/`validateTotals`: sum a year
column over rows, null/undefined cells counting as 0. -/
def sumYear (rows : List Row) (year : Nat) : Int :=
  rows.foldl (fun s r => s + (cellVal r year).getD 0) 0

/-- `calculateTotals(dataRows, maxYears)` (part_001 lines 109-129):
builds the totals row; each year field is the column sum. -/
def calculateTotals (dataRows : List Row) (maxYears : Nat) : Row :=
  { id := "totals-row"
    grade := "Total"
    rowClass := "total-row slds-text-heading_small slds-text-color_success"
    gradeClass := "slds-cell-edit slds-cell-edit_no-button"
    cells := (List.range maxYears).map (fun j => some (sumYear dataRows (j + 1))) }

/-- `(value === null || value === undefined) ? null : parseInt(value, 10)`
applied to a `dataMap.get` result (part_001 line 153). -/
def cellFromLookup (v : Option (Option Int)) : Option Int :=
  match v with
  | some (some q) => some q
  | some none => none
  | none => none

/-- The `mainData` rows of `processLicenseData` (part_001 lines 146-156). -/
def buildMainData (config : ConfigData) (data : List LicenseRecord) : List Row :=
  gradeLabels.enum.map (fun (i, grade) =>
    { id := s!"row-{i}"
      grade := grade
      rowClass := ""
      gradeClass := "slds-cell-edit"
      cells := (List.range config.maxYears).map (fun j =>
        cellFromLookup (dataMapGet data (grade ++ "_" ++ toString (j + 1)))) })

/-- `processLicenseData(data)` (part_001 lines 131-163).  The early
return when `this.configData` is absent is modelled by requiring the
configuration here; the published grid is `mainData ++ [totalsRow]`. -/
def processLicenseData (config : ConfigData) (data : List LicenseRecord) : List Row :=
  let mainData := buildMainData config data
  mainData ++ [calculateTotals mainData config.maxYears]

/-- The grid-merge coercion of a draft value (part_001 lines 241-249):
empty/undefined/null and unparsable values become `null`; otherwise
`Math.max(0, intValue)` clamps negatives to 0. -/
def coerceGridValue (v : RawValue) : Option Int :=
  match v with
  | .jsNull => none
  | .jsUndefined => none
  | .emptyStr => none
  | .intStr n => some (max 0 n)
  | .nonNumeric => none

/-- The pending-change coercion of a draft value (part_001 lines
278-287): empty/undefined/null, unparsable and negative values become
`null`; valid non-negative integers are kept. -/
def coercePendingValue (v : RawValue) : Option Int :=
  match v with
  | .jsNull => none
  | .jsUndefined => none
  | .emptyStr => none
  | .intStr n => if n < 0 then none else some n
  | .nonNumeric => none

/-- One draft-value object from the datatable's `cellchange` event: the
row `id` plus the edited year fields, in `Object.keys` order.  The
datatable only emits fields of its editable columns, which are exactly
`year1..yearN`; field `yearY` is recorded as the index `Y`. -/
structure Draft where
  id : String
  fields : List (Nat × RawValue)
deriving DecidableEq, Repr

/-- One value of the `pendingChanges` map: `{ grade, year, quantity }`;
`year` is the string produced by `field.replace('year', '')`. -/
structure PendingChange where
  grade : String
  year : String
  quantity : Option Int
deriving DecidableEq, Repr

/-- A `ShowToastEvent` dispatched through `showToast`. -/
structure Toast where
  title : String
  message : String
  variant : String
deriving DecidableEq, Repr

/-- The mutable component fields touched by the embedded handlers. -/
structure ComponentState where
  gridData : List Row
  hasChanges : Bool
  pendingChanges : List (String × PendingChange)
  draftValues : List Draft
  configData : Option ConfigData
  isLoading : Bool
deriving DecidableEq, Repr

/-- `Map.prototype.set`: replaces the value of an existing key in place
(keeping insertion order) or appends a new entry. -/
def mapSet (m : List (String × PendingChange)) (k : String) (v : PendingChange) :
    List (String × PendingChange) :=
  if m.any (fun p => p.1 == k) then
    m.map (fun p => if p.1 == k then (k, v) else p)
  else
    m ++ [(k, v)]

/-- The grid-merge inner loop of `handleDraftValueChange` (part_001
lines 239-250): each edited year field is overwritten with its coerced
value. -/
def applyDraftFields (cells : List (Option Int)) (fields : List (Nat × RawValue)) :
    List (Option Int) :=
  fields.foldl (fun cs f => cs.set (f.1 - 1) (coerceGridValue f.2)) cells

/-- Applying the (first) matching draft of the batch to one cloned row
(part_001 lines 234-254). -/
def applyDraftToRow (filtered : List Draft) (row : Row) : Row :=
  match filtered.find? (fun d => d.id == row.id) with
  | some draft => { row with cells := applyDraftFields row.cells draft.fields }
  | none => row

/-- The pending-change update loop of `handleDraftValueChange` (part_001
lines 264-298): for each draft, resolve the grade from the updated rows
and `set` one `{grade, year, quantity}` entry per changed year field. -/
def updatePendingChanges (updatedDataRows : List Row) (filtered : List Draft)
    (pending : List (String × PendingChange)) : List (String × PendingChange) :=
  filtered.foldl (fun m draft =>
    match updatedDataRows.find? (fun r => r.id == draft.id) with
    | none => m
    | some row =>
      draft.fields.foldl (fun m2 f =>
        mapSet m2 (row.grade ++ "_" ++ toString f.1)
          { grade := row.grade, year := toString f.1,
            quantity := coercePendingValue f.2 }) m) pending

/-- `ValidationResult`: `{ isValid, errors }`. -/
structure ValidationResult where
  isValid : Bool
  errors : List String
deriving DecidableEq, Repr

/-- The error message pushed by `validateTotals` (part_001 line 191). -/
def validationMessage (label : String) (total : Int) (maxLicense : Int) : String :=
  s!"{label}: Total ({total}) exceeds maximum license limit ({maxLicense})"

/-- `validateTotals(dataRows)` (part_001 lines 166-202).  The component
method `this.getYearLabel` is passed in as `getYearLabel`.  The guard
`!this.configData || !this.configData.F5_Maximum_License__c` skips
validation when the configuration is absent or the ceiling field is
falsy (absent or `0`). -/
def validateTotals (configData : Option ConfigData) (getYearLabel : Nat → String)
    (dataRows : List Row) : ValidationResult :=
  match configData with
  | none => { isValid := true, errors := [] }
  | some cfg =>
    match cfg.maximumLicense with
    | none => { isValid := true, errors := [] }
    | some maxLicense =>
      if maxLicense = 0 then { isValid := true, errors := [] }
      else
        let errors := (List.range cfg.maxYears).foldl (fun acc j =>
          let year := j + 1
          let total := sumYear dataRows year
          if total > maxLicense then
            acc ++ [validationMessage (getYearLabel year) total maxLicense]
          else acc) []
        { isValid := errors.isEmpty, errors := errors }

/-- `handleDraftValueChange(event)` (part_001 lines 213-308): filter out
totals-row drafts; on an empty remainder only clear `draftValues`;
otherwise merge coerced values onto cloned rows, recompute the totals
row, record pending changes, and emit a non-blocking warning toast when
validation fails. -/
def handleDraftValueChange (getYearLabel : Nat → String) (s : ComponentState)
    (draftValues : List Draft) : ComponentState × List Toast :=
  let filtered := draftValues.filter (fun d => d.id != "totals-row")
  if filtered.isEmpty then
    ({ s with draftValues := [] }, [])
  else
    let currentDataRows := s.gridData.filter (fun r => r.id != "totals-row")
    let updatedDataRows := currentDataRows.map (applyDraftToRow filtered)
    let maxYears := maxYearsOpt s.configData
    let totalsRow := calculateTotals updatedDataRows maxYears
    let pending := updatePendingChanges updatedDataRows filtered s.pendingChanges
    let validation := validateTotals s.configData getYearLabel updatedDataRows
    let toasts :=
      if validation.isValid then []
      else [{ title := "Warning", message := String.intercalate "\n" validation.errors,
              variant := "warning" : Toast }]
    ({ s with
        gridData := updatedDataRows ++ [totalsRow]
        hasChanges := true
        pendingChanges := pending
        draftValues := filtered }, toasts)

/-- Observation helper: the non-totals (editable) rows of a grid, as
selected throughout the component by `row.id !== 'totals-row'`. -/
def nonTotalsRows (grid : List Row) : List Row :=
  grid.filter (fun r => r.id != "totals-row")

/-- Observation helper: the totals rows of a grid (the rows whose id is
the `'totals-row'` sentinel). -/
def totalsRowsOf (grid : List Row) : List Row :=
  grid.filter (fun r => r.id == "totals-row")

/-- The shape of a JS error caught in `handleSave`: `bodyMessage` is
`error.body.message` when `error && error.body && error.body.message`
is truthy, `message` is `error.message` when truthy. -/
structure JsError where
  bodyMessage : Option String
  message : Option String
deriving DecidableEq, Repr

/-- The error-message extraction of the `catch` block (part_001 lines
352-357): structured detail preferred, then `error.message`, then the
generic fallback. -/
def extractErrorMessage (e : JsError) : String :=
  match e.bodyMessage with
  | some m => m
  | none =>
    match e.message with
    | some m => m
    | none => "An unknown error occurred."

/-- Outcome of the external `saveLicenseData` call. -/
inductive SaveOutcome where
  | success
  | failure (e : JsError)
deriving DecidableEq, Repr

/-- `handleSave()` (part_001 lines 310-363).  The external persistence
call's outcome is passed in; the returned `Bool` records whether
`saveLicenseData` was invoked at all.  The post-success `refreshApex`
re-fetch is an external call that later replaces the grid through the
wire handler; it does not change state inside `handleSave`. -/
def handleSave (getYearLabel : Nat → String) (s : ComponentState)
    (outcome : SaveOutcome) : ComponentState × List Toast × Bool :=
  if !s.hasChanges || s.pendingChanges.length == 0 then
    (s, [{ title := "Info", message := "No changes to save.", variant := "info" }], false)
  else
    let dataRows := s.gridData.filter (fun r => r.id != "totals-row")
    let validation := validateTotals s.configData getYearLabel dataRows
    if !validation.isValid then
      (s, [{ title := "Error",
             message := "Cannot save due to validation errors:\n" ++
               String.intercalate "\n" validation.errors,
             variant := "error" }], false)
    else
      match outcome with
      | .success =>
        ({ s with hasChanges := false, pendingChanges := [], draftValues := [],
                  isLoading := false },
         [{ title := "Success", message := "License quantities saved successfully",
            variant := "success" }], true)
      | .failure e =>
        ({ s with isLoading := false },
         [{ title := "Error",
            message := "Failed to save changes: " ++ extractErrorMessage e,
            variant := "error" }], true)

end Part001

namespace Part000

/-- One grid row of the earlier revision (`src/unnamed/part_000`):
`id`, `grade` and the `year1..yearN` fields. -/
structure Row where
  id : String
  grade : String
  cells : List (Option Int)
deriving DecidableEq, Repr

/-- Reading `row[`year${year}`]` of an earlier-revision row. -/
def cellVal (r : Row) (year : Nat) : Option Int :=
  match r.cells[year - 1]? with
  | some v => v
  | none => none

/-- `dataMap.get(key) || null` (part_000 line 94): a falsy lookup —
absent key, stored `null`, or stored `0` — yields `null`. -/
def jsOrNull (v : Option (Option Int)) : Option Int :=
  match v with
  | some (some q) => if q = 0 then none else some q
  | some none => none
  | none => none

/-- `processLicenseData(data)` of the earlier revision (part_000 lines
79-98): nine grade rows, each year filled through `get(key) || null`. -/
def processLicenseData (configData : Option ConfigData) (data : List LicenseRecord) :
    List Row :=
  gradeLabels.enum.map (fun (i, grade) =>
    { id := s!"row-{i}"
      grade := grade
      cells := (List.range (maxYearsOpt configData)).map (fun j =>
        jsOrNull (dataMapGet data (grade ++ "_" ++ toString (j + 1)))) })

end Part000

/-- `americanDateFormat`'s regex `^(\d{4})-(\d{2})-(\d{2})$` from the
force-app revision (lines 486-487): on a match, the three capture
groups. -/
def isoMatch (s : String) : Option (String × String × String) :=
  match s.toList with
  | [y1, y2, y3, y4, h1, m1, m2, h2, d1, d2] =>
    if ([y1, y2, y3, y4].all Char.isDigit && h1 == '-' &&
        [m1, m2].all Char.isDigit && h2 == '-' && [d1, d2].all Char.isDigit) then
      some (String.mk [y1, y2, y3, y4], String.mk [m1, m2], String.mk [d1, d2])
    else none
  | _ => none

/-- `americanDateFormat(inputDate)` (force-app lines 482-495): falsy
input (absent or empty string) and any input not matching the
`YYYY-MM-DD` regex yield `null`; a match is rearranged to
`MM/DD/YYYY`. -/
def americanDateFormat (inputDate : Option String) : Option String :=
  match inputDate with
  | none => none
  | some s =>
    if s = "" then none
    else
      match isoMatch s with
      | some (y, m, d) => some (m ++ "/" ++ d ++ "/" ++ y)
      | none => none

end LicenseGrid

namespace LicenseGrid

namespace Part001

theorem cellVal_calculateTotals (dataRows : List Row) (maxYears year : Nat)
    (h1 : 1 ≤ year) (h2 : year ≤ maxYears) :
    cellVal (calculateTotals dataRows maxYears) year = some (sumYear dataRows year) := by
  obtain ⟨k, rfl⟩ : ∃ k, year = k + 1 := ⟨year - 1, by omega⟩
  simp only [cellVal, calculateTotals, Nat.add_sub_cancel, List.getElem?_map]
  rw [List.getElem?_range (by omega)]
  rfl

theorem applyDraftToRow_id (filtered : List Draft) (r : Row) :
    (applyDraftToRow filtered r).id = r.id := by
  unfold applyDraftToRow
  cases filtered.find? (fun d => d.id == r.id) <;> rfl

theorem applyDraftToRow_grade (filtered : List Draft) (r : Row) :
    (applyDraftToRow filtered r).grade = r.grade := by
  unfold applyDraftToRow
  cases filtered.find? (fun d => d.id == r.id) <;> rfl

theorem rows_filter_append (main : List Row) (t : Row)
    (hmain : ∀ r ∈ main, r.id ≠ "totals-row") (ht : t.id = "totals-row") :
    (main ++ [t]).filter (fun r => r.id != "totals-row") = main
    ∧ (main ++ [t]).filter (fun r => r.id == "totals-row") = [t] := by
  constructor
  · rw [List.filter_append]
    have h1 : main.filter (fun r => r.id != "totals-row") = main :=
      List.filter_eq_self.mpr (fun r hr => by simp [bne_iff_ne, hmain r hr])
    have h2 : [t].filter (fun r => r.id != "totals-row") = [] := by
      simp [List.filter, ht]
    rw [h1, h2, List.append_nil]
  · rw [List.filter_append]
    have h1 : main.filter (fun r => r.id == "totals-row") = [] :=
      List.filter_eq_nil_iff.mpr (fun r hr => by simp [hmain r hr])
    have h2 : [t].filter (fun r => r.id == "totals-row") = [t] := by
      simp [List.filter, ht]
    rw [h1, h2, List.nil_append]

theorem buildMainData_ids (cfg : ConfigData) (data : List LicenseRecord) :
    (buildMainData cfg data).map Row.id =
      ["row-0", "row-1", "row-2", "row-3", "row-4",
       "row-5", "row-6", "row-7", "row-8"] := rfl

theorem mem_buildMainData_id (cfg : ConfigData) (data : List LicenseRecord) :
    ∀ r ∈ buildMainData cfg data, r.id ≠ "totals-row" := by
  intro r hr
  have h := List.mem_map_of_mem Row.id hr
  rw [buildMainData_ids] at h
  simp only [List.mem_cons, List.not_mem_nil, or_false] at h
  rcases h with h | h | h | h | h | h | h | h | h <;> rw [h] <;> decide

theorem processLicenseData_eq (cfg : ConfigData) (data : List LicenseRecord) :
    processLicenseData cfg data =
      buildMainData cfg data
        ++ [calculateTotals (buildMainData cfg data) cfg.maxYears] := rfl

theorem mem_updated_id (s : ComponentState) (filtered : List Draft) :
    ∀ r ∈ (s.gridData.filter (fun r => r.id != "totals-row")).map (applyDraftToRow filtered),
      r.id ≠ "totals-row" := by
  intro r hr
  obtain ⟨r0, hr0, rfl⟩ := List.mem_map.mp hr
  rw [applyDraftToRow_id]
  have := (List.mem_filter.mp hr0).2
  simpa [bne_iff_ne] using this

theorem handleDraft_state (lbl : Nat → String) (s : ComponentState) (drafts : List Draft)
    (h : drafts.filter (fun d => d.id != "totals-row") ≠ []) :
    (handleDraftValueChange lbl s drafts).1 =
      { s with
          gridData :=
            (s.gridData.filter (fun r => r.id != "totals-row")).map
                (applyDraftToRow (drafts.filter (fun d => d.id != "totals-row")))
              ++ [calculateTotals
                    ((s.gridData.filter (fun r => r.id != "totals-row")).map
                      (applyDraftToRow (drafts.filter (fun d => d.id != "totals-row"))))
                    (maxYearsOpt s.configData)]
          hasChanges := true
          pendingChanges :=
            updatePendingChanges
              ((s.gridData.filter (fun r => r.id != "totals-row")).map
                (applyDraftToRow (drafts.filter (fun d => d.id != "totals-row"))))
              (drafts.filter (fun d => d.id != "totals-row"))
              s.pendingChanges
          draftValues := drafts.filter (fun d => d.id != "totals-row") } := by
  unfold handleDraftValueChange
  rw [if_neg (by simpa [List.isEmpty_iff] using h)]

/-- C1: after building from records and configuration, and after every
processed (non-empty after totals-row filtering) edit batch, the totals
row's value for each year column 1..N is the sum of the non-totals rows'
values for that year, null counting as 0. -/
theorem claim1_totals_row_invariant :
    (∀ (cfg : ConfigData) (data : List LicenseRecord) (year : Nat),
      1 ≤ year → year ≤ cfg.maxYears →
      (totalsRowsOf (processLicenseData cfg data)).map (fun r => cellVal r year)
        = [some (sumYear (nonTotalsRows (processLicenseData cfg data)) year)])
    ∧ (∀ (lbl : Nat → String) (s : ComponentState) (drafts : List Draft) (year : Nat),
      drafts.filter (fun d => d.id != "totals-row") ≠ [] →
      1 ≤ year → year ≤ maxYearsOpt s.configData →
      (totalsRowsOf (handleDraftValueChange lbl s drafts).1.gridData).map
          (fun r => cellVal r year)
        = [some (sumYear
            (nonTotalsRows (handleDraftValueChange lbl s drafts).1.gridData) year)]) := by
  constructor
  · intro cfg data year h1 h2
    have hsplit := rows_filter_append (buildMainData cfg data)
      (calculateTotals (buildMainData cfg data) cfg.maxYears)
      (mem_buildMainData_id cfg data) rfl
    unfold totalsRowsOf nonTotalsRows
    rw [processLicenseData_eq, hsplit.2, hsplit.1, List.map_singleton,
      cellVal_calculateTotals _ _ _ h1 h2]
  · intro lbl s drafts year hne h1 h2
    rw [handleDraft_state lbl s drafts hne]
    have hsplit := rows_filter_append
      ((s.gridData.filter (fun r => r.id != "totals-row")).map
        (applyDraftToRow (drafts.filter (fun d => d.id != "totals-row"))))
      (calculateTotals
        ((s.gridData.filter (fun r => r.id != "totals-row")).map
          (applyDraftToRow (drafts.filter (fun d => d.id != "totals-row"))))
        (maxYearsOpt s.configData))
      (mem_updated_id s _) rfl
    unfold totalsRowsOf nonTotalsRows
    rw [hsplit.2, hsplit.1, List.map_singleton, cellVal_calculateTotals _ _ _ h1 h2]

/-- Witness for C1 at a concrete configuration, record list and year. -/
theorem claim1_totals_row_invariant_witness :
    (1 ≤ 1 ∧ 1 ≤ (ConfigData.mk (some 2) none none none).maxYears)
    ∧ (totalsRowsOf (processLicenseData ⟨some 2, none, none, none⟩
          [⟨"K", 1, some 40⟩, ⟨"1", 1, some 50⟩])).map (fun r => cellVal r 1)
      = [some (sumYear (nonTotalsRows (processLicenseData ⟨some 2, none, none, none⟩
          [⟨"K", 1, some 40⟩, ⟨"1", 1, some 50⟩])) 1)] :=
  ⟨⟨by decide, by decide⟩,
    claim1_totals_row_invariant.1 ⟨some 2, none, none, none⟩
      [⟨"K", 1, some 40⟩, ⟨"1", 1, some 50⟩] 1 (by decide) (by decide)⟩

end Part001

end LicenseGrid

namespace LicenseGrid

namespace Part001

theorem rowId_ne_totals (i : Nat) (hi : i < 9) : (s!"row-{i}" : String) ≠ "totals-row" := by
  interval_cases i <;> decide

theorem find?_buildMainData (cfg : ConfigData) (data : List LicenseRecord) (i : Nat)
    (hi : i < 9) :
    (buildMainData cfg data).find? (fun r => r.id == s!"row-{i}") =
      some { id := s!"row-{i}", grade := gradeLabels.getD i "",
             rowClass := "", gradeClass := "slds-cell-edit",
             cells := (List.range cfg.maxYears).map (fun j =>
               cellFromLookup (dataMapGet data
                 (gradeLabels.getD i "" ++ "_" ++ toString (j + 1)))) } := by
  interval_cases i <;> rfl

theorem filter_singleton_draft (i : Nat) (hi : i < 9) (fs : List (Nat × RawValue)) :
    ([(⟨s!"row-{i}", fs⟩ : Draft)].filter (fun d => d.id != "totals-row"))
      = [⟨s!"row-{i}", fs⟩] := by
  have := rowId_ne_totals i hi
  simp [List.filter_cons, this]

theorem applyDraft_single (rid : String) (year : Nat) (V : RawValue) (r : Row)
    (h : r.id = rid) :
    applyDraftToRow [⟨rid, [(year, V)]⟩] r =
      { r with cells := r.cells.set (year - 1) (coerceGridValue V) } := by
  unfold applyDraftToRow
  rw [List.find?_cons_of_pos _ (by simp [h])]
  rfl

theorem cellVal_set (r : Row) (year : Nat) (v : Option Int)
    (h2 : year - 1 < r.cells.length) :
    cellVal { r with cells := r.cells.set (year - 1) v } year = v := by
  unfold cellVal
  rw [List.getElem?_set_self h2]

theorem option_some_or {A : Type} (a : A) (o : Option A) : (some a).or o = some a := rfl

theorem singleEdit_spec (cfg : ConfigData) (data : List LicenseRecord) (lbl : Nat → String)
    (i year : Nat) (V : RawValue) (hi : i < 9) (hy1 : 1 ≤ year) (hy2 : year ≤ cfg.maxYears) :
    (((handleDraftValueChange lbl
        ⟨processLicenseData cfg data, false, [], [], some cfg, false⟩
        [⟨s!"row-{i}", [(year, V)]⟩]).1.gridData.find?
          (fun r => r.id == s!"row-{i}")).map (fun r => cellVal r year)
        = some (coerceGridValue V))
    ∧ (handleDraftValueChange lbl
        ⟨processLicenseData cfg data, false, [], [], some cfg, false⟩
        [⟨s!"row-{i}", [(year, V)]⟩]).1.pendingChanges =
        [(gradeLabels.getD i "" ++ "_" ++ toString year,
          ⟨gradeLabels.getD i "", toString year, coercePendingValue V⟩)]
    ∧ (handleDraftValueChange lbl
        ⟨processLicenseData cfg data, false, [], [], some cfg, false⟩
        [⟨s!"row-{i}", [(year, V)]⟩]).1.hasChanges = true := by
  have hfil := filter_singleton_draft i hi [(year, V)]
  have hne : ([(⟨s!"row-{i}", [(year, V)]⟩ : Draft)].filter
      (fun d => d.id != "totals-row")) ≠ [] := by
    rw [hfil]; simp
  rw [handleDraft_state lbl _ _ hne]
  simp only [hfil]
  have hsplit := rows_filter_append (buildMainData cfg data)
    (calculateTotals (buildMainData cfg data) cfg.maxYears)
    (mem_buildMainData_id cfg data) rfl
  simp only [processLicenseData_eq, hsplit.1]
  rw [List.find?_append, List.find?_map]
  have hp : ((fun r : Row => r.id == s!"row-{i}") ∘
      applyDraftToRow [⟨s!"row-{i}", [(year, V)]⟩]) =
      (fun r : Row => r.id == s!"row-{i}") := by
    funext r
    simp [Function.comp, applyDraftToRow_id]
  rw [hp, find?_buildMainData cfg data i hi]
  simp only [Option.map_some', option_some_or]
  refine ⟨?_, ?_, trivial⟩
  · rw [applyDraft_single (s!"row-{i}") year V _ rfl, cellVal_set]
    simp only [List.length_map, List.length_range]
    omega
  · unfold updatePendingChanges
    simp only [List.foldl_cons, List.foldl_nil]
    rw [List.find?_map, hp, find?_buildMainData cfg data i hi, Option.map_some']
    rw [applyDraft_single (s!"row-{i}") year V _ rfl]
    simp [mapSet]

end Part001

end LicenseGrid

namespace LicenseGrid

namespace Part001

/-- C2 counterexample: editing a cell to the negative value `-5` stores
`0` (via `Math.max`) in the grid row but `null` in the pending-change
entry, so the claimed "negative normalizes to null, the same normalized
value appears in both" is false on the code. -/
theorem claim2_negative_merge_counterexample :
    (((handleDraftValueChange (fun n => "")
        ⟨processLicenseData ⟨some 1, none, none, none⟩ [], false, [], [],
          some ⟨some 1, none, none, none⟩, false⟩
        [⟨"row-0", [(1, RawValue.intStr (-5))]⟩]).1.gridData.find?
          (fun r => r.id == "row-0")).map (fun r => cellVal r 1)
        = some (some 0))
    ∧ ((handleDraftValueChange (fun n => "")
        ⟨processLicenseData ⟨some 1, none, none, none⟩ [], false, [], [],
          some ⟨some 1, none, none, none⟩, false⟩
        [⟨"row-0", [(1, RawValue.intStr (-5))]⟩]).1.pendingChanges.map
          (fun p => p.2.quantity) = [none])
    ∧ some (0 : Int) ≠ (none : Option Int) :=
  ⟨by decide, by decide, by decide⟩

/-- C2 (amended): for every changed year field the merge coerces the raw
value; empty/undefined/unparsable values normalize to `null` in both the
updated grid row and the pending-change entry, a valid non-negative
integer appears unchanged in both, but a negative value is clamped to
`0` in the grid row while the pending-change entry stores `null`; the
edit is never rejected. -/
theorem claim2_merge_coercion_amended :
    ∀ (cfg : ConfigData) (data : List LicenseRecord) (lbl : Nat → String)
      (i year : Nat) (V : RawValue), i < 9 → 1 ≤ year → year ≤ cfg.maxYears →
      (((handleDraftValueChange lbl
          ⟨processLicenseData cfg data, false, [], [], some cfg, false⟩
          [⟨s!"row-{i}", [(year, V)]⟩]).1.gridData.find?
            (fun r => r.id == s!"row-{i}")).map (fun r => cellVal r year)
          = some (coerceGridValue V))
      ∧ ((handleDraftValueChange lbl
          ⟨processLicenseData cfg data, false, [], [], some cfg, false⟩
          [⟨s!"row-{i}", [(year, V)]⟩]).1.pendingChanges.map (fun p => p.2.quantity)
          = [coercePendingValue V])
      ∧ (handleDraftValueChange lbl
          ⟨processLicenseData cfg data, false, [], [], some cfg, false⟩
          [⟨s!"row-{i}", [(year, V)]⟩]).1.hasChanges = true
      ∧ (V = .jsNull ∨ V = .jsUndefined ∨ V = .emptyStr ∨ V = .nonNumeric →
          coerceGridValue V = none ∧ coercePendingValue V = none)
      ∧ (∀ n : Int, V = .intStr n → 0 ≤ n →
          coerceGridValue V = some n ∧ coercePendingValue V = some n)
      ∧ (∀ n : Int, V = .intStr n → n < 0 →
          coerceGridValue V = some 0 ∧ coercePendingValue V = none) := by
  intro cfg data lbl i year V hi hy1 hy2
  have h := singleEdit_spec cfg data lbl i year V hi hy1 hy2
  refine ⟨h.1, ?_, h.2.2, ?_, ?_, ?_⟩
  · rw [h.2.1]; rfl
  · rintro (rfl | rfl | rfl | rfl) <;> exact ⟨rfl, rfl⟩
  · rintro n rfl hn
    constructor
    · simp [coerceGridValue, max_eq_right hn]
    · simp [coercePendingValue, not_lt.mpr hn]
  · rintro n rfl hn
    constructor
    · simp [coerceGridValue, max_eq_left (le_of_lt hn)]
    · simp [coercePendingValue, hn]

/-- Witness for the amended C2: editing grade K, year 1 to the valid
value 5 stores 5 in the grid and in the pending-change entry. -/
theorem claim2_merge_coercion_amended_witness :
    ((0 : Nat) < 9 ∧ (1 : Nat) ≤ 1
      ∧ 1 ≤ (ConfigData.mk (some 1) none none none).maxYears)
    ∧ (((handleDraftValueChange (fun n => "")
        ⟨processLicenseData ⟨some 1, none, none, none⟩ [], false, [], [],
          some ⟨some 1, none, none, none⟩, false⟩
        [⟨"row-0", [(1, RawValue.intStr 5)]⟩]).1.gridData.find?
          (fun r => r.id == "row-0")).map (fun r => cellVal r 1)
        = some (some 5)) :=
  ⟨⟨by decide, by decide, by decide⟩,
    (claim2_merge_coercion_amended ⟨some 1, none, none, none⟩ [] (fun n => "")
      0 1 (RawValue.intStr 5) (by decide) (by decide) (by decide)).1⟩

/-- C3 counterexample: after editing a cell to the negative value `-1`,
reading the grid field back gives `0`, not the claimed `null`. -/
theorem claim3_edit_roundtrip_counterexample :
    (((handleDraftValueChange (fun n => "")
        ⟨processLicenseData ⟨some 1, none, none, none⟩ [], false, [], [],
          some ⟨some 1, none, none, none⟩, false⟩
        [⟨"row-1", [(1, RawValue.intStr (-1))]⟩]).1.gridData.find?
          (fun r => r.id == "row-1")).map (fun r => cellVal r 1)
        = some (some 0))
    ∧ some (some (0 : Int)) ≠ some (none : Option Int) :=
  ⟨by decide, by decide⟩

/-- C3 (amended): after an edit of cell (category i, year) to V, reading
the grid's field back gives V when V is a valid non-negative integer,
`null` when V is empty/undefined/unparsable, and `0` when V is negative;
the pending-change set holds exactly one entry keyed by that
(category, year) whose quantity is V when V is a valid non-negative
integer and `null` otherwise. -/
theorem claim3_edit_roundtrip_amended :
    ∀ (cfg : ConfigData) (data : List LicenseRecord) (lbl : Nat → String)
      (i year : Nat) (V : RawValue), i < 9 → 1 ≤ year → year ≤ cfg.maxYears →
      (((handleDraftValueChange lbl
          ⟨processLicenseData cfg data, false, [], [], some cfg, false⟩
          [⟨s!"row-{i}", [(year, V)]⟩]).1.gridData.find?
            (fun r => r.id == s!"row-{i}")).map (fun r => cellVal r year)
          = some (coerceGridValue V))
      ∧ (handleDraftValueChange lbl
          ⟨processLicenseData cfg data, false, [], [], some cfg, false⟩
          [⟨s!"row-{i}", [(year, V)]⟩]).1.pendingChanges =
          [(gradeLabels.getD i "" ++ "_" ++ toString year,
            ⟨gradeLabels.getD i "", toString year, coercePendingValue V⟩)]
      ∧ ((handleDraftValueChange lbl
          ⟨processLicenseData cfg data, false, [], [], some cfg, false⟩
          [⟨s!"row-{i}", [(year, V)]⟩]).1.pendingChanges.filter
            (fun p => p.1 == gradeLabels.getD i "" ++ "_" ++ toString year)).length = 1
      ∧ (∀ n : Int, 0 ≤ n →
          coerceGridValue (.intStr n) = some n ∧ coercePendingValue (.intStr n) = some n)
      ∧ ((V = .emptyStr ∨ V = .jsNull ∨ V = .jsUndefined ∨ V = .nonNumeric) →
          coerceGridValue V = none ∧ coercePendingValue V = none)
      ∧ (∀ n : Int, n < 0 →
          coerceGridValue (.intStr n) = some 0 ∧ coercePendingValue (.intStr n) = none) := by
  intro cfg data lbl i year V hi hy1 hy2
  have h := singleEdit_spec cfg data lbl i year V hi hy1 hy2
  refine ⟨h.1, h.2.1, ?_, ?_, ?_, ?_⟩
  · rw [h.2.1]
    simp [List.filter_cons]
  · intro n hn
    exact ⟨by simp [coerceGridValue, max_eq_right hn],
           by simp [coercePendingValue, not_lt.mpr hn]⟩
  · rintro (rfl | rfl | rfl | rfl) <;> exact ⟨rfl, rfl⟩
  · intro n hn
    exact ⟨by simp [coerceGridValue, max_eq_left (le_of_lt hn)],
           by simp [coercePendingValue, hn]⟩

/-- Witness for the amended C3: clearing grade 1, year 1 with an empty
string yields exactly one pending entry for key "1_1" holding null. -/
theorem claim3_edit_roundtrip_amended_witness :
    ((1 : Nat) < 9 ∧ (1 : Nat) ≤ 1
      ∧ 1 ≤ (ConfigData.mk (some 1) none none none).maxYears)
    ∧ (handleDraftValueChange (fun n => "")
        ⟨processLicenseData ⟨some 1, none, none, none⟩ [], false, [], [],
          some ⟨some 1, none, none, none⟩, false⟩
        [⟨"row-1", [(1, RawValue.emptyStr)]⟩]).1.pendingChanges =
        [("1_1", ⟨"1", "1", none⟩)] :=
  ⟨⟨by decide, by decide, by decide⟩,
    (claim3_edit_roundtrip_amended ⟨some 1, none, none, none⟩ [] (fun n => "")
      1 1 RawValue.emptyStr (by decide) (by decide) (by decide)).2.1⟩

/-- C7: building the grid from the same configuration and records is
deterministic and idempotent; rows appear in the fixed category order
K,1..8 with the totals row last. -/
theorem claim7_build_deterministic :
    ∀ (cfg : ConfigData) (data : List LicenseRecord),
      processLicenseData cfg data = processLicenseData cfg data
      ∧ (processLicenseData cfg data).map Row.grade = gradeLabels ++ ["Total"]
      ∧ (processLicenseData cfg data).map Row.id =
          ["row-0", "row-1", "row-2", "row-3", "row-4",
           "row-5", "row-6", "row-7", "row-8", "totals-row"] :=
  fun cfg data => ⟨rfl, rfl, rfl⟩

end Part001

end LicenseGrid

namespace LicenseGrid

namespace Part001

/-- C4: when the persistence call fails during save (with the guards
passed), pending changes, draft buffer, grid and the Dirty flag are all
preserved, and the error notice carries the extracted failure reason,
preferring `error.body.message`, then `error.message`, then the generic
fallback. -/
theorem claim4_save_failure_preserves_state :
    ∀ (lbl : Nat → String) (s : ComponentState) (e : JsError),
      s.hasChanges = true →
      s.pendingChanges ≠ [] →
      (validateTotals s.configData lbl
        (s.gridData.filter (fun r => r.id != "totals-row"))).isValid = true →
      (handleSave lbl s (.failure e)).1.pendingChanges = s.pendingChanges
      ∧ (handleSave lbl s (.failure e)).1.draftValues = s.draftValues
      ∧ (handleSave lbl s (.failure e)).1.gridData = s.gridData
      ∧ (handleSave lbl s (.failure e)).1.hasChanges = true
      ∧ (handleSave lbl s (.failure e)).2.1 =
          [⟨"Error", "Failed to save changes: " ++ extractErrorMessage e, "error"⟩]
      ∧ (∀ m mo, e = ⟨some m, mo⟩ → extractErrorMessage e = m)
      ∧ (∀ m, e = ⟨none, some m⟩ → extractErrorMessage e = m)
      ∧ (e = ⟨none, none⟩ → extractErrorMessage e = "An unknown error occurred.") := by
  intro lbl s e h1 h2 h3
  have h2' : (s.pendingChanges.length == 0) = false := by
    simp only [beq_eq_false_iff_ne, ne_eq, List.length_eq_zero]
    exact h2
  have hsave : handleSave lbl s (.failure e) =
      ({ s with isLoading := false },
       [⟨"Error", "Failed to save changes: " ++ extractErrorMessage e, "error"⟩], true) := by
    unfold handleSave
    rw [h1, h2']
    simp only [Bool.not_true, Bool.false_or, if_false, h3, Bool.not_true]
    rfl
  rw [hsave]
  refine ⟨rfl, rfl, rfl, h1, rfl, ?_, ?_, ?_⟩
  · rintro m mo rfl; rfl
  · rintro m rfl; rfl
  · rintro rfl; rfl

/-- Witness for C4 at a concrete Dirty state with a structured error. -/
theorem claim4_save_failure_preserves_state_witness :
    ((⟨[], true, [("K_1", ⟨"K", "1", some 1⟩)], [], none, false⟩ :
        ComponentState).hasChanges = true
      ∧ ((⟨[], true, [("K_1", ⟨"K", "1", some 1⟩)], [], none, false⟩ :
        ComponentState).pendingChanges ≠ [])
      ∧ (validateTotals
          (⟨[], true, [("K_1", ⟨"K", "1", some 1⟩)], [], none, false⟩ :
            ComponentState).configData (fun n => "")
          ((⟨[], true, [("K_1", ⟨"K", "1", some 1⟩)], [], none, false⟩ :
            ComponentState).gridData.filter
              (fun r => r.id != "totals-row"))).isValid = true)
    ∧ (handleSave (fun n => "")
        ⟨[], true, [("K_1", ⟨"K", "1", some 1⟩)], [], none, false⟩
        (.failure ⟨some "boom", none⟩)).1.pendingChanges
        = [("K_1", ⟨"K", "1", some 1⟩)] :=
  ⟨⟨rfl, by decide, by decide⟩,
    (claim4_save_failure_preserves_state (fun n => "")
      ⟨[], true, [("K_1", ⟨"K", "1", some 1⟩)], [], none, false⟩
      ⟨some "boom", none⟩ rfl (by decide) (by decide)).1⟩

/-- C5: saving with an empty pending-change set is a no-op that only
shows an informational notice; saving when the synchronous validation
fails is blocked with an error notice, the persistence call is not made
(`false` third component) and the state is unchanged. -/
theorem claim5_save_guards :
    (∀ (lbl : Nat → String) (s : ComponentState) (outcome : SaveOutcome),
      s.pendingChanges = [] →
      handleSave lbl s outcome =
        (s, [⟨"Info", "No changes to save.", "info"⟩], false))
    ∧ (∀ (lbl : Nat → String) (s : ComponentState) (outcome : SaveOutcome),
      s.hasChanges = true →
      s.pendingChanges ≠ [] →
      (validateTotals s.configData lbl
        (s.gridData.filter (fun r => r.id != "totals-row"))).isValid = false →
      handleSave lbl s outcome =
        (s, [⟨"Error", "Cannot save due to validation errors:\n" ++
            String.intercalate "\n" (validateTotals s.configData lbl
              (s.gridData.filter (fun r => r.id != "totals-row"))).errors, "error"⟩],
         false)) := by
  constructor
  · intro lbl s outcome h
    unfold handleSave
    rw [if_pos (by simp [h])]
  · intro lbl s outcome h1 h2 h3
    have h2' : (s.pendingChanges.length == 0) = false := by
      simp only [beq_eq_false_iff_ne, ne_eq, List.length_eq_zero]
      exact h2
    unfold handleSave
    rw [h1, h2']
    simp only [Bool.not_true, Bool.false_or, if_false, h3, Bool.not_false, if_true]
    rfl

/-- Witness for C5: a save on a Clean state is a pure no-op notice. -/
theorem claim5_save_guards_witness :
    ((⟨[], false, [], [], none, false⟩ : ComponentState).pendingChanges = [])
    ∧ handleSave (fun n => "") ⟨[], false, [], [], none, false⟩ .success =
        (⟨[], false, [], [], none, false⟩,
         [⟨"Info", "No changes to save.", "info"⟩], false) :=
  ⟨rfl, claim5_save_guards.1 (fun n => "") ⟨[], false, [], [], none, false⟩ .success rfl⟩

theorem foldl_push_eq {A B : Type} (p : A → Prop) [DecidablePred p] (f : A → B) :
    ∀ (l : List A) (acc : List B),
      l.foldl (fun acc2 a => if p a then acc2 ++ [f a] else acc2) acc
        = acc ++ (l.filter (fun a => decide (p a))).map f := by
  intro l
  induction l with
  | nil => intro acc; simp
  | cons a t ih =>
    intro acc
    simp only [List.foldl_cons, List.filter_cons]
    by_cases h : p a
    · rw [if_pos h, ih]
      simp [h, List.append_assoc]
    · rw [if_neg h, ih]
      simp [h]

theorem validateTotals_pos (cfg : ConfigData) (lbl : Nat → String) (rows : List Row)
    (m : Int) (hm : cfg.maximumLicense = some m) (hm0 : m ≠ 0) :
    validateTotals (some cfg) lbl rows =
      { isValid := (((List.range cfg.maxYears).map (fun j => j + 1)).filter
          (fun yr => decide (sumYear rows yr > m))).map
            (fun yr => validationMessage (lbl yr) (sumYear rows yr) m) |>.isEmpty,
        errors := (((List.range cfg.maxYears).map (fun j => j + 1)).filter
          (fun yr => decide (sumYear rows yr > m))).map
            (fun yr => validationMessage (lbl yr) (sumYear rows yr) m) } := by
  simp only [validateTotals, hm]
  rw [if_neg hm0]
  rw [foldl_push_eq (fun j => sumYear rows (j + 1) > m)
    (fun j => validationMessage (lbl (j + 1)) (sumYear rows (j + 1)) m)]
  simp only [List.nil_append, List.filter_map, List.map_map, Function.comp]
  rfl

/-- C6: with no ceiling configured the validator returns valid with no
messages; with a configured non-zero ceiling it emits, in year order,
exactly one message per year whose null-as-0 column sum strictly exceeds
the ceiling, built from the column label, the sum and the ceiling; the
validity flag is true iff the message list is empty. -/
theorem claim6_validator_spec :
    (∀ (lbl : Nat → String) (rows : List Row),
      validateTotals none lbl rows = ⟨true, []⟩)
    ∧ (∀ (cfg : ConfigData) (lbl : Nat → String) (rows : List Row),
      cfg.maximumLicense = none → validateTotals (some cfg) lbl rows = ⟨true, []⟩)
    ∧ (∀ (cfg : ConfigData) (lbl : Nat → String) (rows : List Row) (m : Int),
      cfg.maximumLicense = some m → m ≠ 0 →
      (validateTotals (some cfg) lbl rows).errors =
        (((List.range cfg.maxYears).map (fun j => j + 1)).filter
          (fun yr => decide (sumYear rows yr > m))).map
            (fun yr => validationMessage (lbl yr) (sumYear rows yr) m)
      ∧ ((validateTotals (some cfg) lbl rows).isValid = true ↔
          ∀ year, 1 ≤ year → year ≤ cfg.maxYears → sumYear rows year ≤ m))
    ∧ (∀ (c : Option ConfigData) (lbl : Nat → String) (rows : List Row),
      (validateTotals c lbl rows).isValid = (validateTotals c lbl rows).errors.isEmpty) := by
  refine ⟨fun lbl rows => rfl, ?_, ?_, ?_⟩
  · intro cfg lbl rows hm
    simp only [validateTotals, hm]
  · intro cfg lbl rows m hm hm0
    rw [validateTotals_pos cfg lbl rows m hm hm0]
    refine ⟨rfl, ?_⟩
    simp only [List.isEmpty_iff, List.map_eq_nil_iff, List.filter_eq_nil_iff,
      List.mem_map, List.mem_range, decide_eq_true_eq, not_lt]
    constructor
    · intro h year hy1 hy2
      exact h year ⟨year - 1, by omega, by omega⟩
    · rintro h yr ⟨j, hj, rfl⟩
      exact h (j + 1) (by omega) (by omega)
  · intro c lbl rows
    match c with
    | none => rfl
    | some cfg =>
      match hm : cfg.maximumLicense with
      | none => simp [validateTotals, hm]
      | some m =>
        by_cases hm0 : m = 0
        · subst hm0; simp [validateTotals, hm]
        · rw [validateTotals_pos cfg lbl rows m hm hm0]

/-- Witness for C6 with a ceiling of 10 over an empty row list. -/
theorem claim6_validator_spec_witness :
    ((ConfigData.mk (some 1) none none (some 10)).maximumLicense = some 10
      ∧ (10 : Int) ≠ 0)
    ∧ ((validateTotals (some ⟨some 1, none, none, some 10⟩) (fun n => "") []).errors =
        (((List.range (ConfigData.mk (some 1) none none (some 10)).maxYears).map
          (fun j => j + 1)).filter
            (fun yr => decide (sumYear [] yr > (10 : Int)))).map
              (fun yr => validationMessage ((fun n => "") yr) (sumYear [] yr) 10)
      ∧ ((validateTotals (some ⟨some 1, none, none, some 10⟩) (fun n => "") []).isValid
            = true ↔
          ∀ year, 1 ≤ year →
            year ≤ (ConfigData.mk (some 1) none none (some 10)).maxYears →
            sumYear [] year ≤ 10)) :=
  ⟨⟨rfl, by decide⟩,
    claim6_validator_spec.2.2.1 ⟨some 1, none, none, some 10⟩ (fun n => "") [] 10
      rfl (by decide)⟩

/-- C10: a configured ceiling of exactly 0 is falsy, so the validator
treats it as "no ceiling" and always returns valid with no messages, and
a save in such a configuration is never blocked by validation (the
persistence call is reached). -/
theorem claim10_zero_ceiling_disables :
    (∀ (cfg : ConfigData) (lbl : Nat → String) (rows : List Row),
      cfg.maximumLicense = some 0 → validateTotals (some cfg) lbl rows = ⟨true, []⟩)
    ∧ (∀ (lbl : Nat → String) (s : ComponentState) (outcome : SaveOutcome)
        (cfg : ConfigData),
      s.configData = some cfg → cfg.maximumLicense = some 0 →
      s.hasChanges = true → s.pendingChanges ≠ [] →
      (handleSave lbl s outcome).2.2 = true) := by
  have hval : ∀ (cfg : ConfigData) (lbl : Nat → String) (rows : List Row),
      cfg.maximumLicense = some 0 → validateTotals (some cfg) lbl rows = ⟨true, []⟩ := by
    intro cfg lbl rows hm
    simp [validateTotals, hm]
  refine ⟨hval, ?_⟩
  intro lbl s outcome cfg hc hm h1 h2
  have h2' : (s.pendingChanges.length == 0) = false := by
    simp only [beq_eq_false_iff_ne, ne_eq, List.length_eq_zero]
    exact h2
  unfold handleSave
  rw [h1, h2']
  simp only [Bool.not_true, Bool.false_or, if_false]
  rw [hc, hval cfg lbl _ hm]
  cases outcome <;> rfl

/-- Witness for C10: with ceiling 0 and a positive pending grid total,
the save call is still attempted. -/
theorem claim10_zero_ceiling_disables_witness :
    ((⟨[], true, [("K_1", ⟨"K", "1", some 5⟩)], [],
        some ⟨some 1, none, none, some 0⟩, false⟩ :
        ComponentState).configData = some ⟨some 1, none, none, some 0⟩
      ∧ (ConfigData.mk (some 1) none none (some 0)).maximumLicense = some 0
      ∧ (⟨[], true, [("K_1", ⟨"K", "1", some 5⟩)], [],
          some ⟨some 1, none, none, some 0⟩, false⟩ :
          ComponentState).hasChanges = true
      ∧ ((⟨[], true, [("K_1", ⟨"K", "1", some 5⟩)], [],
          some ⟨some 1, none, none, some 0⟩, false⟩ :
          ComponentState).pendingChanges ≠ []))
    ∧ (handleSave (fun n => "")
        ⟨[], true, [("K_1", ⟨"K", "1", some 5⟩)], [],
          some ⟨some 1, none, none, some 0⟩, false⟩ .success).2.2 = true :=
  ⟨⟨rfl, rfl, rfl, by decide⟩,
    claim10_zero_ceiling_disables.2 (fun n => "")
      ⟨[], true, [("K_1", ⟨"K", "1", some 5⟩)], [],
        some ⟨some 1, none, none, some 0⟩, false⟩ .success
      ⟨some 1, none, none, some 0⟩ rfl rfl rfl (by decide)⟩

end Part001

end LicenseGrid

namespace LicenseGrid

theorem exists_four_chars (l : List Char) (h : l.length = 4) :
    ∃ c1 c2 c3 c4, l = [c1, c2, c3, c4] := by
  match l, h with
  | [c1, c2, c3, c4], _ => exact ⟨c1, c2, c3, c4, rfl⟩

theorem exists_two_chars (l : List Char) (h : l.length = 2) :
    ∃ c1 c2, l = [c1, c2] := by
  match l, h with
  | [c1, c2], _ => exact ⟨c1, c2, rfl⟩

/-- C8: the date-label formatter sends an absent or empty input to null,
turns any `YYYY-MM-DD` digit string into `MM/DD/YYYY`, and sends every
input not matching the regex to null. -/
theorem claim8_date_format :
    (americanDateFormat none = none)
    ∧ (americanDateFormat (some "") = none)
    ∧ (∀ y m d : String, y.length = 4 → m.length = 2 → d.length = 2 →
        y.toList.all Char.isDigit = true → m.toList.all Char.isDigit = true →
        d.toList.all Char.isDigit = true →
        americanDateFormat (some (y ++ "-" ++ m ++ "-" ++ d))
          = some (m ++ "/" ++ d ++ "/" ++ y))
    ∧ (∀ s : String, isoMatch s = none → americanDateFormat (some s) = none) := by
  refine ⟨rfl, rfl, ?_, ?_⟩
  · intro y m d hy hm hd hyd hmd hdd
    obtain ⟨y1, y2, y3, y4, hy2⟩ := exists_four_chars y.toList hy
    obtain ⟨m1, m2, hm2⟩ := exists_two_chars m.toList hm
    obtain ⟨d1, d2, hd2⟩ := exists_two_chars d.toList hd
    have hs : (y ++ "-" ++ m ++ "-" ++ d).toList
        = [y1, y2, y3, y4, '-', m1, m2, '-', d1, d2] := by
      have hsplit : (y ++ "-" ++ m ++ "-" ++ d).toList
          = y.toList ++ ['-'] ++ m.toList ++ ['-'] ++ d.toList := rfl
      rw [hsplit, hy2, hm2, hd2]
      rfl
    have hne : (y ++ "-" ++ m ++ "-" ++ d) ≠ "" := by
      intro h
      have h2 := congrArg String.toList h
      rw [hs] at h2
      simp at h2
    have hred : americanDateFormat (some (y ++ "-" ++ m ++ "-" ++ d))
        = if (y ++ "-" ++ m ++ "-" ++ d) = "" then none
          else match isoMatch (y ++ "-" ++ m ++ "-" ++ d) with
            | some (yy, mm, dd) => some (mm ++ "/" ++ dd ++ "/" ++ yy)
            | none => none := rfl
    have hcond : ([y1, y2, y3, y4].all Char.isDigit && '-' == '-' &&
        [m1, m2].all Char.isDigit && '-' == '-' && [d1, d2].all Char.isDigit) = true := by
      rw [← hy2, ← hm2, ← hd2]
      simp only [hyd, hmd, hdd]
      rfl
    rw [hred, if_neg hne]
    unfold isoMatch
    rw [hs]
    dsimp only
    rw [if_pos hcond]
    rw [← hy2, ← hm2, ← hd2]
    rfl
  · intro s hs
    have hred : americanDateFormat (some s)
        = if s = "" then none
          else match isoMatch s with
            | some (yy, mm, dd) => some (mm ++ "/" ++ dd ++ "/" ++ yy)
            | none => none := rfl
    rw [hred]
    by_cases he : s = ""
    · rw [if_pos he]
    · rw [if_neg he, hs]

/-- Witness for C8 at the date 2024-01-15 and at a non-matching input. -/
theorem claim8_date_format_witness :
    (("2024" : String).length = 4 ∧ ("01" : String).length = 2
      ∧ ("15" : String).length = 2
      ∧ ("2024" : String).toList.all Char.isDigit = true
      ∧ ("01" : String).toList.all Char.isDigit = true
      ∧ ("15" : String).toList.all Char.isDigit = true)
    ∧ americanDateFormat (some ("2024" ++ "-" ++ "01" ++ "-" ++ "15"))
        = some ("01" ++ "/" ++ "15" ++ "/" ++ "2024") :=
  ⟨⟨by decide, by decide, by decide, by decide, by decide, by decide⟩,
    claim8_date_format.2.2.1 "2024" "01" "15" (by decide) (by decide) (by decide)
      (by decide) (by decide) (by decide)⟩

theorem jsOrNull_single_zero (g : String) (y : Nat) (key : String) :
    Part000.jsOrNull (dataMapGet [⟨g, y, some 0⟩] key)
      = Part000.jsOrNull (dataMapGet [] key) := by
  unfold dataMapGet
  simp only [List.reverse_nil, List.reverse_singleton, List.find?_nil, Option.map_none']
  have hcons : (List.find?
      (fun r : LicenseRecord => r.gradeLevel ++ "_" ++ toString r.year == key)
      [⟨g, y, some 0⟩])
      = bif (g ++ "_" ++ toString y == key) then some ⟨g, y, some 0⟩ else none := rfl
  rw [hcons]
  cases g ++ "_" ++ toString y == key <;> rfl

/-- C9: in the earlier revision's grid builder, `dataMap.get(key) || null`
coalesces a stored quantity of 0 to null, so a grid built from a
zero-quantity record is identical to one built with that record absent. -/
theorem claim9_zero_quantity_null :
    (∀ (c : Option ConfigData) (g : String) (y : Nat),
      Part000.processLicenseData c [⟨g, y, some 0⟩] = Part000.processLicenseData c [])
    ∧ (∀ (data : List LicenseRecord) (key : String),
      dataMapGet data key = some (some 0) →
      Part000.jsOrNull (dataMapGet data key) = none) := by
  constructor
  · intro c g y
    unfold Part000.processLicenseData
    refine List.map_congr_left (fun p hp => ?_)
    have hcells : ∀ kj : Nat,
        Part000.jsOrNull (dataMapGet [⟨g, y, some 0⟩] (p.2 ++ "_" ++ toString (kj + 1)))
          = Part000.jsOrNull (dataMapGet [] (p.2 ++ "_" ++ toString (kj + 1))) :=
      fun kj => jsOrNull_single_zero g y _
    exact congrArg (fun cs => Part000.Row.mk _ _ cs)
      (List.map_congr_left (fun j hj => hcells j))
  · intro data key h
    rw [h]
    rfl

/-- Witness for C9: a single zero-quantity record for (K, 1) stores null. -/
theorem claim9_zero_quantity_null_witness :
    dataMapGet [⟨"K", 1, some 0⟩] "K_1" = some (some 0)
    ∧ Part000.jsOrNull (dataMapGet [⟨"K", 1, some 0⟩] "K_1") = none :=
  ⟨by decide, claim9_zero_quantity_null.2 [⟨"K", 1, some 0⟩] "K_1" (by decide)⟩

end LicenseGrid
